import Mathlib

/-!
Verification development for the availability-diff and notification-dispatch
engine of the Search_Tennis_Fly repository (`refresh_and_notify.py`) and its
ingestion benchmark harness (`benchmark_55s.py`).

The Python code is shallowly embedded: Python values that may reach
`slot_key_from_time` are modelled by the inductive type `Val`; database
tables are lists with insert-if-absent discipline (modelling the SQL
`on conflict do nothing` / upsert clauses); the push transport is an oracle
function returning success or a failure status; timestamps are naturals.
String helpers (`pyStrip`, `removeDashes`, ...) model the exact Python
string methods used by the source, implemented over `List Char` so that all
definitions are executable and kernel-reducible.
-/

namespace Tennis

/-- Models Python `str.strip()` with no arguments: drop whitespace from both
ends. -/
def pyStrip (s : String) : String :=
  String.mk (((s.data.dropWhile (fun c => c.isWhitespace)).reverse.dropWhile
    (fun c => c.isWhitespace)).reverse)

/-- Models the call `s.replace("-", "")` in `to_yyyymmdd`: removing every
dash. -/
def removeDashes (s : String) : String :=
  String.mk (s.data.filter (fun c => c ≠ '-'))

/-- Models Python `"-" in s`. -/
def hasDash (s : String) : Bool :=
  s.data.any (fun c => c = '-')

/-- Models Python `", ".join(l)` (and f-string joining in general). -/
def joinSep (sep : String) : List String → String
  | [] => ""
  | [x] => x
  | x :: rest => x ++ sep ++ joinSep sep rest

/-- Models the Python slice `s[a:a+n]` (character based). -/
def sliceChars (s : String) (a n : Nat) : String :=
  String.mk ((s.data.drop a).take n)

/-- Models Python `s.startswith(p)`. -/
def strStarts (p s : String) : Bool :=
  p.data.isPrefixOf s.data

/-- Ascending lexicographic comparison on strings, modelling the order used
by Python `sorted`. -/
def charsLe : List Char → List Char → Bool
  | [], _ => true
  | _ :: _, [] => false
  | c :: cs, d :: ds => if c < d then true else if d < c then false else charsLe cs ds

/-- String comparison for `sortStr`. -/
def strLeB (a b : String) : Bool := charsLe a.data b.data

/-- Insert into a sorted list (helper of `sortStr`). -/
def insertSorted (x : String) : List String → List String
  | [] => [x]
  | y :: ys => if strLeB x y then x :: y :: ys else y :: insertSorted x ys

/-- Models Python `sorted` on a list of strings (insertion sort; stable and
ascending like Python's sort). -/
def sortStr : List String → List String
  | [] => []
  | x :: xs => insertSorted x (sortStr xs)

/-- Python-set discipline on lists: add an element if it is not already
present.  Models both `set.add` and SQL `insert ... on conflict do nothing`. -/
def pyInsert {α : Type} [DecidableEq α] (l : List α) (x : α) : List α :=
  if x ∈ l then l else l ++ [x]

/-- Association-list lookup, modelling Python `dict.get` (`none` = absent). -/
def alookup {α β : Type} [DecidableEq α] : List (α × β) → α → Option β
  | [], _ => none
  | (a, b) :: rest, x => if a = x then some b else alookup rest x

/-- Association-list store, modelling Python `dict.__setitem__`. -/
def aset {α β : Type} [DecidableEq α] : List (α × β) → α → β → List (α × β)
  | [], x, v => [(x, v)]
  | (a, b) :: rest, x, v => if a = x then (x, v) :: rest else (a, b) :: aset rest x v

/-- Python values that may reach `slot_key_from_time`: `None`, strings,
integers, and (possibly nested) dicts with string keys. -/
inductive Val : Type where
  | vnull : Val
  | vstr (s : String) : Val
  | vint (n : Int) : Val
  | vdict (fields : List (String × Val)) : Val

/-- Python truthiness of a `Val` (`None`, `""`, `0` and `{}` are falsy). -/
def truthy : Val → Bool
  | .vnull => false
  | .vstr s => decide (s ≠ "")
  | .vint n => decide (n ≠ 0)
  | .vdict [] => false
  | .vdict (_ :: _) => true

/-- Models `t.get(k)` on a dict: `None` when the key is absent. -/
def getv (fs : List (String × Val)) (k : String) : Val :=
  (alookup fs k).getD Val.vnull

/-- Models Python `a or b`: the first operand if truthy, otherwise the
second. -/
def orv (a b : Val) : Val := if truthy a then a else b

mutual
/-- Models Python `repr` of a value, used for elements nested inside a dict
being converted by `str`. -/
def pyValRepr : Val → String
  | .vnull => "None"
  | .vstr s => "\x27" ++ s ++ "\x27"
  | .vint n => toString n
  | .vdict fs => "\x7b" ++ joinSep ", " (pyEntriesRepr fs) ++ "\x7d"

/-- Entry renderings for `pyValRepr` of a dict. -/
def pyEntriesRepr : List (String × Val) → List String
  | [] => []
  | (k, v) :: rest => ("\x27" ++ k ++ "\x27: " ++ pyValRepr v) :: pyEntriesRepr rest
end

/-- Models Python `str(v)` (top level: strings render without quotes). -/
def pyStr : Val → String
  | .vnull => "None"
  | .vstr s => s
  | .vint n => toString n
  | .vdict fs => "\x7b" ++ joinSep ", " (pyEntriesRepr fs) ++ "\x7d"

/-- Models `str(v).strip() if v is not None else ""` as used twice in
`slot_key_from_time`. -/
def pyStrStripOrEmpty : Val → String
  | .vnull => ""
  | v => pyStrip (pyStr v)

/-- The recognized time-field synonyms of `slot_key_from_time`, in the order
the source probes them. -/
def timeKeys : List String :=
  ["time", "startTime", "start_time", "stime", "label", "timeContent"]

/-- The recognized court-field synonyms of `slot_key_from_time`, in the
order the source probes them. -/
def courtKeys : List String :=
  ["court", "courtNo", "court_no", "courtName", "court_name"]

/-- The `time_val` computation of `slot_key_from_time`: the `or`-chain over
the six time-field synonyms, then one level of drilling when the value is
itself a dict (`time_val.get("time") or time_val.get("label")`). -/
def timeValOf (fs : List (String × Val)) : Val :=
  let tv :=
    orv (getv fs "time")
      (orv (getv fs "startTime")
        (orv (getv fs "start_time")
          (orv (getv fs "stime")
            (orv (getv fs "label") (getv fs "timeContent")))))
  match tv with
  | .vdict inner => orv (getv inner "time") (getv inner "label")
  | v => v

/-- The `time_str` computation of `slot_key_from_time`. -/
def time_str_of (fs : List (String × Val)) : String :=
  pyStrStripOrEmpty (timeValOf fs)

/-- The `court_val`/`court_str` computation of `slot_key_from_time`. -/
def court_str_of (fs : List (String × Val)) : String :=
  pyStrStripOrEmpty
    (orv (getv fs "court")
      (orv (getv fs "courtNo")
        (orv (getv fs "court_no")
          (orv (getv fs "courtName") (getv fs "court_name")))))

/-- Embedding of `slot_key_from_time` (refresh_and_notify.py, lines 52-91):
derives the canonical SlotKey from a heterogeneous slot value. -/
def slot_key_from_time : Val → String
  | .vnull => ""
  | .vstr s => pyStrip s
  | .vdict fs =>
    let time_str := time_str_of fs
    let court_str := court_str_of fs
    if court_str ≠ "" ∧ time_str ≠ "" then time_str ++ "|" ++ court_str else time_str
  | .vint n => pyStrip (pyStr (.vint n))

/-- Embedding of `to_yyyymmdd` (lines 21-31): normalize `"YYYY-MM-DD"` or
`"YYYYMMDD"` to the 8-character DateKey. -/
def to_yyyymmdd (s : String) : String :=
  if s = "" then ""
  else
    let s := pyStrip s
    if hasDash s then removeDashes s else s

/-- Scanner for the regex substitution `re.sub(r"\[.*?\]", "", title)`:
outside a bracket, `[` opens one; inside, everything up to the first `]` is
dropped; an unclosed `[` and what follows it are kept verbatim (the
non-greedy pattern does not match there).  The second argument holds, in
reverse, the characters consumed since the pending `[`. -/
def rbAux : List Char → Option (List Char) → List Char
  | [], none => []
  | [], some pending => pending.reverse
  | c :: rest, none =>
    if c = '[' then rbAux rest (some [c]) else c :: rbAux rest none
  | c :: rest, some pending =>
    if c = ']' then rbAux rest none else rbAux rest (some (c :: pending))

/-- Models `re.sub(r"\[.*?\]", "", s)`. -/
def removeBracketed (s : String) : String :=
  String.mk (rbAux s.data none)

/-- Models `s.split(pat)[0]`: the characters before the first occurrence of
the (nonempty) pattern. -/
def takeBefore (pat : List Char) : List Char → List Char
  | [] => []
  | c :: rest =>
    if pat.isPrefixOf (c :: rest) then [] else c :: takeBefore pat rest

/-- Embedding of `get_court_group` (lines 42-50): strip bracketed tags and
the trailing facility-category suffix from the title, then namespace by
source. -/
def get_court_group (title : String) (facility_id : String) : String :=
  let base := pyStrip (String.mk (takeBefore "테니스장".data (removeBracketed title).data))
  if strStarts "yongin:" facility_id then "용인|" ++ base
  else if strStarts "goyang:" facility_id then "고양|" ++ base
  else base

/-- Row of the pre-existing `alarms` table.  The `enabled` field models the
`subscriptions.enabled` column of the spec's schema (§6); the table's DDL is
not part of the repository and `load_alarms` never references the column. -/
structure AlarmRow : Type where
  subscription_id : String
  court_group : String
  date : String
  enabled : Bool
deriving DecidableEq

/-- The three columns `load_alarms` actually selects. -/
structure Alarm : Type where
  subscription_id : String
  court_group : String
  date : String
deriving DecidableEq

/-- Embedding of `load_alarms` (lines 383-394): `select subscription_id,
court_group, date from public.alarms` — every row, no `where` clause. -/
def load_alarms (rows : List AlarmRow) : List Alarm :=
  rows.map (fun r => { subscription_id := r.subscription_id,
                       court_group := r.court_group, date := r.date })

/-- A `push_subscriptions` row as assembled by `load_push_subscriptions`
(`endpoint` plus the two key fields). -/
structure PushSub : Type where
  endpoint : String
  p256dh : String
  auth : String
deriving DecidableEq

/-- Snapshot table row (`slots_snapshot`), with first/last-seen timestamps
modelled as naturals. -/
structure SnapRow : Type where
  facility_id : String
  date_ymd : String
  slot_key : String
  first_seen_at : Nat
  last_seen_at : Nat
deriving DecidableEq

/-- The database tables the engine reads and writes.  Tables are lists with
insert-if-absent discipline (SQL `on conflict do nothing`); `sent_slots`
stores `(subscription_id, slot_key)` exactly as the table does — its
`sent_at` column plays no role in any read and is omitted.  The
frontend-only tables (`facilities`, `availability_cache`) are outside the
modelled state; only the success or failure of their writes is tracked. -/
structure DB : Type where
  baseline_slots : List (String × String × String × String)
  sent_slots : List (String × String)
  slots_snapshot : List SnapRow
deriving DecidableEq

/-- Embedding of `load_push_subscriptions` (lines 359-380): a map from
subscription id to subscription info, restricted to the requested ids. -/
def load_push_subscriptions (table : List (String × PushSub)) (sub_ids : List String) :
    String → Option PushSub :=
  fun sid => if sid ∈ sub_ids then alookup table sid else none

/-- The `baseline_slots` time-contents stored for one
`(subscription_id, court_group, date)` key (the per-key set assembled by
`preload_baseline`, lines 397-433). -/
def baselineRowsFor (db : DB) (k : String × String × String) : List String :=
  (db.baseline_slots.filter
    (fun r => decide (r.1 = k.1 ∧ r.2.1 = k.2.1 ∧ r.2.2.1 = k.2.2))).map
    (fun r => r.2.2.2)

/-- Embedding of `preload_baseline`: one batched read producing the key →
slot-set map.  The Python dict has no entry for a key without rows; the
engine only ever tests the entry for falsiness, so mapping such keys to the
empty set is observationally identical. -/
def preload_baseline (db : DB) (keys : List (String × String × String)) :
    List ((String × String × String) × List String) :=
  keys.map (fun k => (k, baselineRowsFor db k))

/-- Embedding of `preload_sent_slots` (lines 462-485): for each requested
subscriber, the sent slot-keys among the candidate keys. -/
def preload_sent_slots (db : DB) (sub_ids : List String) (candidates : List String) :
    List (String × List String) :=
  sub_ids.map (fun sid =>
    (sid, (db.sent_slots.filter
      (fun r => decide (r.1 = sid ∧ r.2 ∈ candidates))).map (fun r => r.2)))

/-- Embedding of `insert_baseline` (lines 436-459): conflict-safe insert of
the current slot keys as the baseline for one key; empty keys are skipped. -/
def insert_baseline (db : DB) (sub_id court_group ymd : String)
    (slot_keys : List String) : DB :=
  { db with baseline_slots :=
      (slot_keys.foldl
        (fun tbl sk => if sk = "" then tbl else pyInsert tbl (sub_id, court_group, ymd, sk))
        db.baseline_slots) }

/-- Embedding of `bulk_mark_sent` (lines 488-504): conflict-safe bulk insert
into `sent_slots`. -/
def bulk_mark_sent (db : DB) (rows : List (String × String)) : DB :=
  { db with sent_slots := rows.foldl pyInsert db.sent_slots }

/-- One upsert of `bulk_upsert_slots_snapshot`: refresh `last_seen_at` on
conflict, insert with both timestamps otherwise. -/
def upsertSnapRow (ts : Nat) (tbl : List SnapRow) (r : String × String × String) :
    List SnapRow :=
  if tbl.any (fun row =>
      decide (row.facility_id = r.1 ∧ row.date_ymd = r.2.1 ∧ row.slot_key = r.2.2)) then
    tbl.map (fun row =>
      if row.facility_id = r.1 ∧ row.date_ymd = r.2.1 ∧ row.slot_key = r.2.2 then
        { row with last_seen_at := ts }
      else row)
  else tbl ++ [{ facility_id := r.1, date_ymd := r.2.1, slot_key := r.2.2,
                 first_seen_at := ts, last_seen_at := ts }]

/-- Embedding of `bulk_upsert_slots_snapshot` (lines 507-525).  The Python
code converts the DateKey to a `date` object for the column; the model keeps
the 8-character string it round-trips to. -/
def bulk_upsert_slots_snapshot (db : DB) (ts : Nat) (rows : List (String × String × String)) :
    DB :=
  { db with slots_snapshot := rows.foldl (upsertSnapRow ts) db.slots_snapshot }

/-- Outcome of one `send_push` call: success, or a `WebPushException`
carrying an optional HTTP status code. -/
inductive PushResult : Type where
  | ok : PushResult
  | fail (status : Option Nat) : PushResult
deriving DecidableEq

/-- Structured log events corresponding to the `print` statements of
`main`. -/
inductive LogEvent : Type where
  | warnFrontendCache : LogEvent
  | summaryNoAlarms : LogEvent
  | summaryNoValidAlarms : LogEvent
  | pushFail (sid group ymd : String) (status : Option Nat) : LogEvent
  | warnSnapshotFlush : LogEvent
  | warnSentFlush : LogEvent
  | summary (alarms baseline_inserts push_requests sent_added : Nat) : LogEvent
deriving DecidableEq

/-- The mutable state threaded through `main`'s notification loop (step 10):
the connection's tables, the two preloaded maps, the accumulated
`sent_rows`, the log, and the three counters. -/
structure EngineState : Type where
  db : DB
  baseline_map : List ((String × String × String) × List String)
  sent_map : List (String × List String)
  sent_rows : List (String × String)
  logs : List LogEvent
  push_requests : Nat
  baseline_inserts : Nat
  added_total : Nat
deriving DecidableEq

/-- Embedding of step 5 of `main` (lines 585-596): normalize alarms to
`(subscription_id, court_group, yyyymmdd)` keys, dropping rows with an empty
id, an empty stripped group, or a DateKey that is not 8 characters. -/
def alarm_keys (alarms : List Alarm) : List (String × String × String) :=
  alarms.filterMap (fun a =>
    let sid := a.subscription_id
    let group := pyStrip a.court_group
    let ymd := to_yyyymmdd a.date
    if sid = "" ∨ group = "" ∨ ymd.length ≠ 8 then none else some (sid, group, ymd))

/-- Embedding of step 4 of `main` (line 582): the sorted set of nonempty
subscription ids appearing in alarms. -/
def cycle_sub_ids (alarms : List Alarm) : List String :=
  sortStr ((alarms.filterMap (fun a =>
    if a.subscription_id = "" then none else some a.subscription_id)).dedup)

/-- Embedding of step 7 of `main` (lines 604-609): the facility ids whose
derived court group equals `group` (the `group_to_fids` index, read through
`.get(group, [])`). -/
def group_to_fids (facilities : List (String × String)) (group : String) : List String :=
  (facilities.filter (fun f => get_court_group f.2 f.1 = group)).map (fun f => f.1)

/-- The slot keys of `availability[fid][ymd]` accumulated into a Python set
(lines 623-636), starting from `acc`. -/
def addSlotKeys (availability : List (String × List (String × List Val)))
    (fid ymd : String) (acc : List String) : List String :=
  ((alookup ((alookup availability fid).getD []) ymd).getD []).foldl
    (fun acc t =>
      let sk := slot_key_from_time t
      if sk = "" then acc else pyInsert acc sk) acc

/-- Embedding of the `cur_slots` computation of step 8 (lines 617-636): the
union over the group's facilities of the slot keys for the requested date. -/
def currentSlots (facilities : List (String × String))
    (availability : List (String × List (String × List Val)))
    (group ymd : String) : List String :=
  (group_to_fids facilities group).foldl
    (fun acc fid => addSlotKeys availability fid ymd acc) []

/-- Embedding of the candidate-key set of step 8: the union of all current
slot sets, used to scope the `sent_slots` preload. -/
def candidateSlotKeys (facilities : List (String × String))
    (availability : List (String × List (String × List Val)))
    (keys : List (String × String × String)) : List String :=
  keys.foldl (fun acc k => (currentSlots facilities availability k.2.1 k.2.2).foldl pyInsert acc) []

/-- The deterministic preview of the push body: the first 6 keys joined by
`", "` (line 677). -/
def previewOf (to_send : List String) : String :=
  joinSep ", " (to_send.take 6)

/-- The `" 외 N개"` suffix of the push body: empty for 6 or fewer keys
(line 678). -/
def moreOf (to_send : List String) : String :=
  if to_send.length ≤ 6 then "" else " 외 " ++ toString (to_send.length - 6) ++ "개"

/-- The push body of line 681:
`f"{group} {ymd[4:6]}/{ymd[6:8]} 신규 슬롯: {preview}{more}"`. -/
def pushBody (group ymd : String) (to_send : List String) : String :=
  group ++ " " ++ sliceChars ymd 4 2 ++ "/" ++ sliceChars ymd 6 2 ++
    " 신규 슬롯: " ++ previewOf to_send ++ moreOf to_send

/-- The push title of line 680. -/
def pushTitle : String := "🎾 예약 오픈"

/-- The per-key `sent_map` update of lines 689-691: add each sent key to the
subscriber's set. -/
def markSentMap (m : List (String × List String)) (sid : String) (ks : List String) :
    List (String × List String) :=
  ks.foldl (fun m sk => aset m sid (pyInsert ((alookup m sid).getD []) sk)) m

/-- Embedding of one iteration of `main`'s notification loop (lines
646-695).  `pushMap` is the preloaded `push_subscriptions` map, `curMap`
the precomputed `key_to_current_slots` index, and `oracle` the push
transport (`send_push`): it receives the subscription info, title and body
and either succeeds or raises a `WebPushException` with an optional status
code — the only exception the loop handles.  A missing baseline entry and
an empty stored set are both falsy in Python, so the `if not baseline:`
test is modelled by emptiness of the defaulted lookup. -/
def processKey (pushMap : String → Option PushSub)
    (curMap : String × String × String → List String)
    (oracle : PushSub → String → String → PushResult)
    (st : EngineState) (k : String × String × String) : EngineState :=
  let sid := k.1
  let group := k.2.1
  let ymd := k.2.2
  let cur_slots := curMap k
  match pushMap sid with
  | none => st
  | some sub_info =>
    let baseline := (alookup st.baseline_map k).getD []
    if baseline = [] then
      if cur_slots = [] then st
      else
        { st with db := insert_baseline st.db sid group ymd cur_slots,
                  baseline_inserts := st.baseline_inserts + 1,
                  baseline_map := aset st.baseline_map k cur_slots }
    else
      let added := cur_slots.filter (fun sk => sk ∉ baseline)
      if added = [] then st
      else
        let already_sent := (alookup st.sent_map sid).getD []
        let to_send := (sortStr added).filter (fun sk => sk ∉ already_sent)
        if to_send = [] then st
        else
          match oracle sub_info pushTitle (pushBody group ymd to_send) with
          | .ok =>
            { st with push_requests := st.push_requests + 1,
                      added_total := st.added_total + to_send.length,
                      sent_rows := st.sent_rows ++ to_send.map (fun sk => (sid, sk)),
                      sent_map := markSentMap st.sent_map sid to_send }
          | .fail code =>
            { st with logs := st.logs ++ [.pushFail sid group ymd code] }

/-- Embedding of step 11 of `main` (lines 697-708): the snapshot rows
accumulated from the whole availability map, skipping malformed DateKeys
and empty slot keys. -/
def buildSnapshotRows (availability : List (String × List (String × List Val))) :
    List (String × String × String) :=
  availability.foldr (fun fd acc =>
    (fd.2.foldr (fun ds acc2 =>
      (if ds.1 = "" ∨ ds.1.length ≠ 8 then [] else
        ds.2.filterMap (fun t =>
          let sk := slot_key_from_time t
          if sk = "" then none else some (fd.1, ds.1, sk))) ++ acc2) []) ++ acc) []

/-- Which store writes fail this cycle (each `try`-guarded write of
`main`). -/
structure StoreFaults : Type where
  frontend_fails : Bool
  snapshot_fails : Bool
  sent_fails : Bool
deriving DecidableEq

/-- Embedding of step 12 of `main` (lines 710-719): both bulk flushes run
inside their own `try`/`except` that logs a `[WARN]` line; a failing flush
leaves the store untouched and execution continues. -/
def flushPhase (faults : StoreFaults) (dbIn : DB) (now : Nat)
    (snapRows : List (String × String × String)) (sentRows : List (String × String)) :
    DB × List LogEvent :=
  let db1 := if faults.snapshot_fails then dbIn else bulk_upsert_slots_snapshot dbIn now snapRows
  let w1 : List LogEvent := if faults.snapshot_fails then [.warnSnapshotFlush] else []
  let db2 := if faults.sent_fails then db1 else bulk_mark_sent db1 sentRows
  let w2 : List LogEvent := if faults.sent_fails then [.warnSentFlush] else []
  (db2, w1 ++ w2)

/-- Inputs of one cycle: the crawl result (facility titles and availability),
the pre-existing `alarms` and `push_subscriptions` tables, and the wall
clock used for snapshot timestamps. -/
structure CycleInput : Type where
  now : Nat
  facilities : List (String × String)
  availability : List (String × List (String × List Val))
  alarm_rows : List AlarmRow
  push_table : List (String × PushSub)

/-- Observable result of one cycle: final store, log, and the summary
counters. -/
structure CycleOutput : Type where
  db : DB
  logs : List LogEvent
  push_requests : Nat
  baseline_inserts : Nat
  added_total : Nat
deriving DecidableEq

/-- Embedding of `main` (lines 547-721) from the point where the crawl
result is available.  The frontend cache writes (step 2) touch only tables
outside the modelled store; their failure produces a warning and execution
continues.  Note the two early returns: with no alarms, or no valid alarm
keys, `main` returns before step 11, so the snapshot flush never runs. -/
def main (db : DB) (inp : CycleInput) (faults : StoreFaults)
    (oracle : PushSub → String → String → PushResult) : CycleOutput :=
  let logs0 : List LogEvent := if faults.frontend_fails then [.warnFrontendCache] else []
  let alarms := load_alarms inp.alarm_rows
  if alarms = [] then
    { db := db, logs := logs0 ++ [.summaryNoAlarms],
      push_requests := 0, baseline_inserts := 0, added_total := 0 }
  else
    let sub_ids := cycle_sub_ids alarms
    let pushMap := load_push_subscriptions inp.push_table sub_ids
    let keys := alarm_keys alarms
    if keys = [] then
      { db := db, logs := logs0 ++ [.summaryNoValidAlarms],
        push_requests := 0, baseline_inserts := 0, added_total := 0 }
    else
      let curMap := fun k : String × String × String =>
        currentSlots inp.facilities inp.availability k.2.1 k.2.2
      let candidates := candidateSlotKeys inp.facilities inp.availability keys
      let st0 : EngineState :=
        { db := db, baseline_map := preload_baseline db keys,
          sent_map := preload_sent_slots db sub_ids candidates,
          sent_rows := [], logs := logs0,
          push_requests := 0, baseline_inserts := 0, added_total := 0 }
      let st1 := keys.foldl (processKey pushMap curMap oracle) st0
      let fl := flushPhase faults st1.db inp.now (buildSnapshotRows inp.availability) st1.sent_rows
      { db := fl.1,
        logs := st1.logs ++ fl.2 ++
          [.summary keys.length st1.baseline_inserts st1.push_requests st1.added_total],
        push_requests := st1.push_requests,
        baseline_inserts := st1.baseline_inserts,
        added_total := st1.added_total }

end Tennis

namespace Bench

/-- Embedding of the worker coroutine `one` of `run_timeboxed`
(benchmark_55s.py, lines 82-119).  Time is modelled in milliseconds as
naturals; the clock samples the worker would observe from
`time.perf_counter()` are supplied as a list, consumed one per observation
(first the deadline check, then — after a successful dequeue — the
safety-margin check; `0.3` seconds is 300 ms).  The queue is the shared
work queue as this worker sees it; `q.get_nowait()` on the empty queue
raises `QueueEmpty`, which the worker catches and turns into a normal
return.  The result is the list of `(start_time, job)` fetches this worker
began (most recent first) together with the queue entries it left
unclaimed; an exhausted clock ends the run.  All exceptions raised by the
fetch itself are caught inside the loop (lines 100-119), so the only exits
are the returns modelled here. -/
def one (deadline : Nat) : List Nat → List (String × String) →
    List (Nat × String × String) → List (Nat × String × String) × List (String × String)
  | [], q, started => (started, q)
  | t1 :: clock, q, started =>
    if deadline ≤ t1 then (started, q)
    else
      match q with
      | [] => (started, [])
      | j :: q2 =>
        match clock with
        | [] => (started, q2)
        | t2 :: clock2 =>
          if deadline ≤ t2 + 300 then (started, q2)
          else one deadline clock2 q2 ((t2, j) :: started)

end Bench

namespace Tennis

theorem pyInsert_mem {α : Type} [DecidableEq α] (l : List α) (x y : α) :
    y ∈ pyInsert l x ↔ y ∈ l ∨ y = x := by
  unfold pyInsert
  split
  · rename_i hx
    constructor
    · exact fun h => Or.inl h
    · rintro (h | rfl)
      · exact h
      · exact hx
  · simp

theorem bar_append_ne_empty (a b : String) : a ++ "|" ++ b ≠ "" := by
  intro h
  have hlen := congrArg String.length h
  rw [String.length_append, String.length_append] at hlen
  have h1 : String.length "|" = 1 := rfl
  have h0 : String.length "" = 0 := rfl
  omega

end Tennis

/-- C3: SlotKey derivation is total: the embedding `slot_key_from_time` is a
total function over all modelled inputs (`None`, strings, numbers, records)
— it cannot raise; on a record it yields the empty string exactly when the
time-field extraction yields an empty string, in particular whenever none
of the six recognized time-field synonyms is present; a record carrying a
usable time and a usable court yields `"<time>|<court>"`, and one carrying
only a time yields `"<time>"`. -/
theorem slot_key_derivation_total :
    (Tennis.slot_key_from_time .vnull = "") ∧
    (∀ s : String, Tennis.slot_key_from_time (.vstr s) = Tennis.pyStrip s) ∧
    (∀ fs : List (String × Tennis.Val),
      (∀ k ∈ Tennis.timeKeys, Tennis.alookup fs k = none) →
      Tennis.slot_key_from_time (.vdict fs) = "") ∧
    (∀ fs : List (String × Tennis.Val),
      Tennis.slot_key_from_time (.vdict fs) = "" ↔ Tennis.time_str_of fs = "") ∧
    (∀ ts cs : String, Tennis.pyStrip ts ≠ "" → Tennis.pyStrip cs ≠ "" →
      Tennis.slot_key_from_time (.vdict [("time", .vstr ts), ("court", .vstr cs)]) =
        Tennis.pyStrip ts ++ "|" ++ Tennis.pyStrip cs) ∧
    (∀ ts : String, Tennis.slot_key_from_time (.vdict [("time", .vstr ts)]) =
      Tennis.pyStrip ts) := by
  refine ⟨rfl, fun s => rfl, ?_, ?_, ?_, ?_⟩
  · intro fs h
    have h1 : Tennis.alookup fs "time" = none := h "time" (by decide)
    have h2 : Tennis.alookup fs "startTime" = none := h "startTime" (by decide)
    have h3 : Tennis.alookup fs "start_time" = none := h "start_time" (by decide)
    have h4 : Tennis.alookup fs "stime" = none := h "stime" (by decide)
    have h5 : Tennis.alookup fs "label" = none := h "label" (by decide)
    have h6 : Tennis.alookup fs "timeContent" = none := h "timeContent" (by decide)
    simp [Tennis.slot_key_from_time, Tennis.time_str_of, Tennis.timeValOf,
      Tennis.getv, Tennis.orv, Tennis.truthy, Tennis.pyStrStripOrEmpty,
      h1, h2, h3, h4, h5, h6]
  · intro fs
    show (if Tennis.court_str_of fs ≠ "" ∧ Tennis.time_str_of fs ≠ "" then
        Tennis.time_str_of fs ++ "|" ++ Tennis.court_str_of fs
      else Tennis.time_str_of fs) = "" ↔ Tennis.time_str_of fs = ""
    split
    · rename_i hcond
      constructor
      · intro hk
        exact absurd hk (Tennis.bar_append_ne_empty _ _)
      · intro ht
        exact absurd ht hcond.2
    · exact Iff.rfl
  · intro ts cs hts hcs
    have hts0 : ts ≠ "" := by
      intro h0
      exact hts (by rw [h0]; rfl)
    have hcs0 : cs ≠ "" := by
      intro h0
      exact hcs (by rw [h0]; rfl)
    simp [Tennis.slot_key_from_time, Tennis.time_str_of, Tennis.court_str_of,
      Tennis.timeValOf, Tennis.getv, Tennis.alookup, Tennis.orv, Tennis.truthy,
      Tennis.pyStrStripOrEmpty, Tennis.pyStr, hts0, hcs0, hts, hcs]
  · intro ts
    by_cases h0 : ts = ""
    · subst h0
      decide
    · simp [Tennis.slot_key_from_time, Tennis.time_str_of, Tennis.court_str_of,
        Tennis.timeValOf, Tennis.getv, Tennis.alookup, Tennis.orv, Tennis.truthy,
        Tennis.pyStrStripOrEmpty, Tennis.pyStr, h0]

/-- Witness for C3 at concrete inputs. -/
theorem slot_key_derivation_total_witness :
    Tennis.pyStrip " 19:00~21:00 " ≠ "" ∧ Tennis.pyStrip "A코트" ≠ "" ∧
      Tennis.slot_key_from_time
        (.vdict [("time", .vstr " 19:00~21:00 "), ("court", .vstr "A코트")]) =
        "19:00~21:00|A코트" := by
  refine ⟨by decide, by decide, ?_⟩
  have h := slot_key_derivation_total.2.2.2.2.1 " 19:00~21:00 " "A코트"
    (by decide) (by decide)
  simpa using h

/-- C8: Preview truncation: for every nonempty list of SlotKeys handed to
the notifier, the push body is some text followed directly by the first 6
keys joined by `", "` and then the `moreOf` suffix; that suffix is empty
for 6 or fewer keys, is `" 외 N개"` with `N = count − 6` for more than 6,
and in particular is `" 외 3개"` for 9 keys. -/
theorem preview_truncation :
    ∀ (g y : String) (ts : List String), ts ≠ [] →
      (∃ pre, Tennis.pushBody g y ts =
        pre ++ Tennis.joinSep ", " (ts.take 6) ++ Tennis.moreOf ts) ∧
      (ts.length ≤ 6 → Tennis.moreOf ts = "") ∧
      (6 < ts.length →
        Tennis.moreOf ts = " 외 " ++ toString (ts.length - 6) ++ "개") ∧
      (ts.length = 9 → Tennis.moreOf ts = " 외 3개") := by
  intro g y ts _
  refine ⟨⟨g ++ " " ++ Tennis.sliceChars y 4 2 ++ "/" ++ Tennis.sliceChars y 6 2 ++
      " 신규 슬롯: ", rfl⟩, ?_, ?_, ?_⟩
  · intro h
    simp [Tennis.moreOf, h]
  · intro h
    have h6 : ¬ ts.length ≤ 6 := by omega
    simp [Tennis.moreOf, h6]
  · intro h
    rw [Tennis.moreOf, h]
    norm_num
    rfl

/-- Witness for C8 at a concrete 9-element list. -/
theorem preview_truncation_witness :
    (["a", "b", "c", "d", "e", "f", "g", "h", "i"] ≠ ([] : List String)) ∧
      Tennis.moreOf ["a", "b", "c", "d", "e", "f", "g", "h", "i"] = " 외 3개" ∧
      Tennis.pushBody "마루" "20250301" ["a", "b", "c", "d", "e", "f", "g", "h", "i"] =
        "마루 03/01 신규 슬롯: a, b, c, d, e, f 외 3개" := by
  refine ⟨by decide, ?_, by decide⟩
  exact (preview_truncation "마루" "20250301"
    ["a", "b", "c", "d", "e", "f", "g", "h", "i"] (by decide)).2.2.2 (by decide)

namespace Bench

theorem one_started_aux (d : Nat) :
    ∀ (n : Nat) (clock : List Nat), clock.length ≤ n →
      ∀ (q : List (String × String)) (acc : List (Nat × String × String))
        (p : Nat × String × String),
        p ∈ (one d clock q acc).1 → p ∈ acc ∨ p.1 + 300 < d := by
  intro n
  induction n with
  | zero =>
    intro clock hlen q acc p hp
    have hc : clock = [] := List.eq_nil_of_length_eq_zero (Nat.le_zero.1 hlen)
    subst hc
    rw [one.eq_def] at hp
    simp at hp
    exact Or.inl hp
  | succ n ih =>
    intro clock hlen q acc p hp
    cases clock with
    | nil =>
      rw [one.eq_def] at hp
      simp at hp
      exact Or.inl hp
    | cons t1 rest =>
      by_cases h1 : d ≤ t1
      · rw [one.eq_def] at hp
        simp [h1] at hp
        exact Or.inl hp
      · cases q with
        | nil =>
          rw [one.eq_def] at hp
          simp [h1] at hp
          exact Or.inl hp
        | cons j q2 =>
          cases rest with
          | nil =>
            rw [one.eq_def] at hp
            simp [h1] at hp
            exact Or.inl hp
          | cons t2 rest2 =>
            by_cases h2 : d ≤ t2 + 300
            · rw [one.eq_def] at hp
              simp [h1, h2] at hp
              exact Or.inl hp
            · rw [one.eq_def] at hp
              simp only [if_neg h1, if_neg h2] at hp
              have hlen2 : rest2.length ≤ n := by
                simp [List.length] at hlen
                omega
              rcases ih rest2 hlen2 q2 ((t2, j) :: acc) p hp with h | h
              · rcases List.mem_cons.1 h with h | h
                · subst h
                  exact Or.inr (by omega)
                · exact Or.inl h
              · exact Or.inr h

end Bench

/-- C9: Ingestion harness deadline discipline: every fetch a worker begins
starts strictly more than the 300 ms safety margin before the deadline
(hence strictly before the deadline), and a worker that observes the
deadline already reached returns normally at once, leaving the whole
remaining queue unclaimed. -/
theorem harness_deadline_discipline :
    (∀ (deadline : Nat) (clock : List Nat) (q : List (String × String))
        (p : Nat × String × String),
        p ∈ (Bench.one deadline clock q []).1 →
        p.1 + 300 < deadline ∧ p.1 < deadline) ∧
    (∀ (deadline t1 : Nat) (clock : List Nat) (q : List (String × String))
        (acc : List (Nat × String × String)),
        deadline ≤ t1 → Bench.one deadline (t1 :: clock) q acc = (acc, q)) := by
  constructor
  · intro deadline clock q p hp
    rcases Bench.one_started_aux deadline clock.length clock (le_refl _) q [] p hp with h | h
    · simp at h
    · exact ⟨h, by omega⟩
  · intro deadline t1 clock q acc h
    rw [Bench.one.eq_def]
    simp [h]

/-- Witness for C9: a concrete two-sample run starts its one job 310 ms
before a 1000 ms deadline, and a worker seeing sample 7 past deadline 5
stops with the queue intact. -/
theorem harness_deadline_discipline_witness :
    ((10, ("r1", "20250301")) ∈ (Bench.one 1000 [0, 10] [("r1", "20250301")] []).1 ∧
      10 + 300 < 1000 ∧ 10 < 1000) ∧
    ((5 : Nat) ≤ 7 ∧ Bench.one 5 [7] [("r1", "20250301")] [] = ([], [("r1", "20250301")])) := by
  constructor
  · refine ⟨by decide, ?_⟩
    exact harness_deadline_discipline.1 1000 [0, 10] [("r1", "20250301")]
      (10, ("r1", "20250301")) (by decide)
  · exact ⟨by decide, harness_deadline_discipline.2 5 7 [] [("r1", "20250301")] [] (by decide)⟩

/-- C10: If a subscriber has no registered push endpoint, the loop body is
the identity on the whole engine state for that subscription key: no
baseline insert, no push attempt, no sent-log accumulation, no log entry,
no counter change. -/
theorem no_endpoint_frame :
    ∀ (pm : String → Option Tennis.PushSub)
      (cm : String × String × String → List String)
      (oracle : Tennis.PushSub → String → String → Tennis.PushResult)
      (st : Tennis.EngineState) (sid group ymd : String),
      pm sid = none →
      Tennis.processKey pm cm oracle st (sid, group, ymd) = st := by
  intro pm cm oracle st sid group ymd h
  simp [Tennis.processKey, h]

/-- Witness for C10 at a concrete state and key. -/
theorem no_endpoint_frame_witness :
    ((fun _ : String => (none : Option Tennis.PushSub)) "s9" = none) ∧
      Tennis.processKey (fun _ => none) (fun _ => ["10:00~12:00"])
        (fun _ _ _ => Tennis.PushResult.ok)
        { db := { baseline_slots := [], sent_slots := [], slots_snapshot := [] },
          baseline_map := [], sent_map := [], sent_rows := [], logs := [],
          push_requests := 0, baseline_inserts := 0, added_total := 0 }
        ("s9", "마루", "20250301") =
        { db := { baseline_slots := [], sent_slots := [], slots_snapshot := [] },
          baseline_map := [], sent_map := [], sent_rows := [], logs := [],
          push_requests := 0, baseline_inserts := 0, added_total := 0 } := by
  exact ⟨rfl, no_endpoint_frame (fun _ => none) (fun _ => ["10:00~12:00"])
    (fun _ _ _ => Tennis.PushResult.ok) _ "s9" "마루" "20250301" rfl⟩

namespace Tennis

theorem alookup_aset_self {α β : Type} [DecidableEq α] (m : List (α × β)) (k : α) (v : β) :
    alookup (aset m k v) k = some v := by
  induction m with
  | nil => simp [aset, alookup]
  | cons ab rest ih =>
    obtain ⟨a, b⟩ := ab
    by_cases h : a = k
    · simp [aset, h, alookup]
    · simp [aset, h, alookup, ih]

theorem baseline_fold_mem (sid g y : String) :
    ∀ (l : List String) (tbl : List (String × String × String × String))
      (r : String × String × String × String),
      r ∈ l.foldl
        (fun tbl sk => if sk = "" then tbl else pyInsert tbl (sid, g, y, sk)) tbl ↔
      r ∈ tbl ∨ ∃ sk, sk ∈ l ∧ sk ≠ "" ∧ r = (sid, g, y, sk) := by
  intro l
  induction l with
  | nil => simp
  | cons a as ih =>
    intro tbl r
    simp only [List.foldl_cons]
    by_cases ha : a = ""
    · rw [if_pos ha, ih]
      constructor
      · rintro (h | ⟨sk, hsk, hne, rfl⟩)
        · exact Or.inl h
        · exact Or.inr ⟨sk, List.mem_cons_of_mem _ hsk, hne, rfl⟩
      · rintro (h | ⟨sk, hsk, hne, rfl⟩)
        · exact Or.inl h
        · rcases List.mem_cons.1 hsk with rfl | hsk
          · exact absurd ha hne
          · exact Or.inr ⟨sk, hsk, hne, rfl⟩
    · rw [if_neg ha, ih]
      constructor
      · rintro (h | ⟨sk, hsk, hne, rfl⟩)
        · rcases (pyInsert_mem tbl (sid, g, y, a) r).1 h with h | rfl
          · exact Or.inl h
          · exact Or.inr ⟨a, List.mem_cons_self _ _, ha, rfl⟩
        · exact Or.inr ⟨sk, List.mem_cons_of_mem _ hsk, hne, rfl⟩
      · rintro (h | ⟨sk, hsk, hne, rfl⟩)
        · exact Or.inl ((pyInsert_mem tbl (sid, g, y, a) r).2 (Or.inl h))
        · rcases List.mem_cons.1 hsk with rfl | hsk
          · exact Or.inl ((pyInsert_mem tbl (sid, g, y, sk) _).2 (Or.inr rfl))
          · exact Or.inr ⟨sk, hsk, hne, rfl⟩

theorem baselineRowsFor_mem (db : DB) (k : String × String × String) (sk : String) :
    sk ∈ baselineRowsFor db k ↔
      ∃ r ∈ db.baseline_slots,
        (r.1 = k.1 ∧ r.2.1 = k.2.1 ∧ r.2.2.1 = k.2.2) ∧ r.2.2.2 = sk := by
  simp [baselineRowsFor, List.mem_map, List.mem_filter]

theorem baselineRowsFor_nil_iff (db : DB) (k : String × String × String) :
    baselineRowsFor db k = [] ↔
      ∀ r ∈ db.baseline_slots,
        ¬(r.1 = k.1 ∧ r.2.1 = k.2.1 ∧ r.2.2.1 = k.2.2) := by
  constructor
  · intro h r hr hk
    have : r.2.2.2 ∈ baselineRowsFor db k :=
      (baselineRowsFor_mem db k r.2.2.2).2 ⟨r, hr, hk, rfl⟩
    rw [h] at this
    simp at this
  · intro h
    rcases hb : baselineRowsFor db k with _ | ⟨sk, rest⟩
    · rfl
    · have : sk ∈ baselineRowsFor db k := by rw [hb]; exact List.mem_cons_self _ _
      rcases (baselineRowsFor_mem db k sk).1 this with ⟨r, hr, hk, _⟩
      exact absurd hk (h r hr)

end Tennis

/-- C2: Baseline suppression: when a subscription key with a registered
push endpoint is evaluated with no existing baseline (neither a preloaded
entry nor any `baseline_slots` row for the key) and a nonempty current slot
set, the engine persists exactly that set as the key's baseline (conflict
safe, counting one baseline-establishment event) and emits nothing — no
push, no sent rows, no log entry; and on a subsequent evaluation of the
key whose preloaded baseline equals that same current set, the engine
leaves the state completely unchanged. -/
theorem baseline_first_sight :
    ∀ (pm : String → Option Tennis.PushSub)
      (cm : String × String × String → List String)
      (oracle : Tennis.PushSub → String → String → Tennis.PushResult)
      (st : Tennis.EngineState) (sid group ymd : String) (info : Tennis.PushSub),
      pm sid = some info →
      (Tennis.alookup st.baseline_map (sid, group, ymd)).getD [] = [] →
      Tennis.baselineRowsFor st.db (sid, group, ymd) = [] →
      cm (sid, group, ymd) ≠ [] →
      "" ∉ cm (sid, group, ymd) →
      ((∀ sk, sk ∈ Tennis.baselineRowsFor
          (Tennis.processKey pm cm oracle st (sid, group, ymd)).db (sid, group, ymd) ↔
          sk ∈ cm (sid, group, ymd)) ∧
        Tennis.alookup
          (Tennis.processKey pm cm oracle st (sid, group, ymd)).baseline_map
          (sid, group, ymd) = some (cm (sid, group, ymd)) ∧
        (Tennis.processKey pm cm oracle st (sid, group, ymd)).push_requests =
          st.push_requests ∧
        (Tennis.processKey pm cm oracle st (sid, group, ymd)).sent_rows = st.sent_rows ∧
        (Tennis.processKey pm cm oracle st (sid, group, ymd)).logs = st.logs ∧
        (Tennis.processKey pm cm oracle st (sid, group, ymd)).baseline_inserts =
          st.baseline_inserts + 1 ∧
        (∀ (pm2 : String → Option Tennis.PushSub) (st2 : Tennis.EngineState),
          (Tennis.alookup st2.baseline_map (sid, group, ymd)).getD [] =
            cm (sid, group, ymd) →
          Tennis.processKey pm2 cm oracle st2 (sid, group, ymd) = st2)) := by
  intro pm cm oracle st sid group ymd info hpush hmap hrows hcur hne
  have hkey : Tennis.processKey pm cm oracle st (sid, group, ymd) =
      { st with
        db := Tennis.insert_baseline st.db sid group ymd (cm (sid, group, ymd)),
        baseline_inserts := st.baseline_inserts + 1,
        baseline_map := Tennis.aset st.baseline_map (sid, group, ymd)
          (cm (sid, group, ymd)) } := by
    simp [Tennis.processKey, hpush, hmap, hcur]
  refine ⟨?_, ?_, ?_, ?_, ?_, ?_, ?_⟩
  · intro sk
    rw [hkey]
    show sk ∈ Tennis.baselineRowsFor
      (Tennis.insert_baseline st.db sid group ymd (cm (sid, group, ymd)))
      (sid, group, ymd) ↔ sk ∈ cm (sid, group, ymd)
    rw [Tennis.baselineRowsFor_mem]
    constructor
    · rintro ⟨r, hr, hk, rfl⟩
      rcases (Tennis.baseline_fold_mem sid group ymd (cm (sid, group, ymd))
          st.db.baseline_slots r).1 hr with h | ⟨sk2, hsk2, _, rfl⟩
      · exact absurd hk ((Tennis.baselineRowsFor_nil_iff st.db (sid, group, ymd)).1 hrows r h)
      · exact hsk2
    · intro hsk
      refine ⟨(sid, group, ymd, sk), ?_, ⟨rfl, rfl, rfl⟩, rfl⟩
      exact (Tennis.baseline_fold_mem sid group ymd (cm (sid, group, ymd))
        st.db.baseline_slots (sid, group, ymd, sk)).2
        (Or.inr ⟨sk, hsk, fun h => hne (h ▸ hsk), rfl⟩)
  · rw [hkey]
    exact Tennis.alookup_aset_self st.baseline_map (sid, group, ymd) (cm (sid, group, ymd))
  · rw [hkey]
  · rw [hkey]
  · rw [hkey]
  · rw [hkey]
  · intro pm2 st2 h2
    have haddnil : List.filter
        (fun sk => decide (sk ∉ cm (sid, group, ymd))) (cm (sid, group, ymd)) = [] := by
      rw [List.filter_eq_nil_iff]
      intro a ha
      simp [ha]
    rcases hp2 : pm2 sid with _ | info2
    · simp [Tennis.processKey, hp2]
    · simp [Tennis.processKey, hp2, h2, hcur, haddnil]

/-- Witness for C2 at a concrete first-sight evaluation. -/
theorem baseline_first_sight_witness :
    ((fun s : String => if s = "s1" then
        some ({ endpoint := "e", p256dh := "p", auth := "a" } : Tennis.PushSub)
      else none) "s1" = some { endpoint := "e", p256dh := "p", auth := "a" }) ∧
      ("10:00~12:00" ∈ Tennis.baselineRowsFor
        (Tennis.processKey
          (fun s => if s = "s1" then
            some { endpoint := "e", p256dh := "p", auth := "a" } else none)
          (fun _ => ["10:00~12:00"]) (fun _ _ _ => Tennis.PushResult.ok)
          { db := { baseline_slots := [], sent_slots := [], slots_snapshot := [] },
            baseline_map := [], sent_map := [], sent_rows := [], logs := [],
            push_requests := 0, baseline_inserts := 0, added_total := 0 }
          ("s1", "마루", "20250301")).db ("s1", "마루", "20250301")) ∧
      (Tennis.processKey
          (fun s => if s = "s1" then
            some { endpoint := "e", p256dh := "p", auth := "a" } else none)
          (fun _ => ["10:00~12:00"]) (fun _ _ _ => Tennis.PushResult.ok)
          { db := { baseline_slots := [], sent_slots := [], slots_snapshot := [] },
            baseline_map := [], sent_map := [], sent_rows := [], logs := [],
            push_requests := 0, baseline_inserts := 0, added_total := 0 }
          ("s1", "마루", "20250301")).push_requests = 0 := by
  have h := baseline_first_sight
    (fun s => if s = "s1" then
      some { endpoint := "e", p256dh := "p", auth := "a" } else none)
    (fun _ => ["10:00~12:00"]) (fun _ _ _ => Tennis.PushResult.ok)
    { db := { baseline_slots := [], sent_slots := [], slots_snapshot := [] },
      baseline_map := [], sent_map := [], sent_rows := [], logs := [],
      push_requests := 0, baseline_inserts := 0, added_total := 0 }
    "s1" "마루" "20250301" { endpoint := "e", p256dh := "p", auth := "a" }
    rfl rfl rfl (by decide) (by decide)
  exact ⟨rfl, (h.1 "10:00~12:00").2 (by decide), h.2.2.1⟩

namespace Tennis

theorem processKey_db_snapshot (pm : String → Option PushSub)
    (cm : String × String × String → List String)
    (oracle : PushSub → String → String → PushResult)
    (st : EngineState) (k : String × String × String) :
    (processKey pm cm oracle st k).db.slots_snapshot = st.db.slots_snapshot := by
  rcases hp : pm k.1 with _ | info
  · simp [processKey, hp]
  · simp only [processKey, hp]
    repeat' split
    all_goals rfl

theorem fold_processKey_snapshot (pm : String → Option PushSub)
    (cm : String × String × String → List String)
    (oracle : PushSub → String → String → PushResult) :
    ∀ (keys : List (String × String × String)) (st : EngineState),
      ((keys.foldl (processKey pm cm oracle) st).db.slots_snapshot =
        st.db.slots_snapshot) := by
  intro keys
  induction keys with
  | nil => intro st; rfl
  | cons k rest ih =>
    intro st
    rw [List.foldl_cons, ih, processKey_db_snapshot]

theorem flushPhase_fst_snapshot (f : StoreFaults) (d : DB) (n : Nat)
    (sr : List (String × String × String)) (xr : List (String × String)) :
    (flushPhase f d n sr xr).1.slots_snapshot =
      if f.snapshot_fails then d.slots_snapshot
      else sr.foldl (upsertSnapRow n) d.slots_snapshot := by
  unfold flushPhase
  cases hf : f.snapshot_fails <;> cases hs : f.sent_fails <;>
    simp [hf, hs, bulk_mark_sent, bulk_upsert_slots_snapshot]

theorem main_snapshot_spec (db : DB) (inp : CycleInput) (faults : StoreFaults)
    (oracle : PushSub → String → String → PushResult) :
    (main db inp faults oracle).db.slots_snapshot =
      if load_alarms inp.alarm_rows = [] then db.slots_snapshot
      else if alarm_keys (load_alarms inp.alarm_rows) = [] then db.slots_snapshot
      else if faults.snapshot_fails then db.slots_snapshot
      else (buildSnapshotRows inp.availability).foldl (upsertSnapRow inp.now)
        db.slots_snapshot := by
  by_cases h1 : load_alarms inp.alarm_rows = []
  · simp [main, h1]
  · by_cases h2 : alarm_keys (load_alarms inp.alarm_rows) = []
    · simp [main, h1, h2]
    · simp only [main, if_neg h1, if_neg h2]
      rw [flushPhase_fst_snapshot, fold_processKey_snapshot]

end Tennis

/-- C5: On push transport failure for a subscription that had slots to
send, the loop body only appends a `[PUSH_FAIL]` log entry carrying the
subscriber id, scope, date and status code — the store, the sent rows, the
sent map and all counters are untouched, so the failed keys are never
marked sent and no exception escapes the iteration; moreover the
notification loop never touches the snapshot table, and the snapshot
produced by a full cycle is entirely independent of the push transport's
behavior. -/
theorem push_failure_contained :
    (∀ (pm : String → Option Tennis.PushSub)
        (cm : String × String × String → List String)
        (oracle : Tennis.PushSub → String → String → Tennis.PushResult)
        (st : Tennis.EngineState) (sid group ymd : String)
        (info : Tennis.PushSub) (code : Option Nat),
      pm sid = some info →
      (∀ t b, oracle info t b = .fail code) →
      (Tennis.alookup st.baseline_map (sid, group, ymd)).getD [] ≠ [] →
      (Tennis.sortStr (List.filter
          (fun sk => decide (sk ∉ (Tennis.alookup st.baseline_map (sid, group, ymd)).getD []))
          (cm (sid, group, ymd)))).filter
        (fun sk => decide (sk ∉ (Tennis.alookup st.sent_map sid).getD [])) ≠ [] →
      Tennis.processKey pm cm oracle st (sid, group, ymd) =
        { st with logs := st.logs ++ [.pushFail sid group ymd code] }) ∧
    (∀ (pm : String → Option Tennis.PushSub)
        (cm : String × String × String → List String)
        (oracle : Tennis.PushSub → String → String → Tennis.PushResult)
        (keys : List (String × String × String)) (st : Tennis.EngineState),
      (keys.foldl (Tennis.processKey pm cm oracle) st).db.slots_snapshot =
        st.db.slots_snapshot) ∧
    (∀ (db : Tennis.DB) (inp : Tennis.CycleInput) (faults : Tennis.StoreFaults)
        (o1 o2 : Tennis.PushSub → String → String → Tennis.PushResult),
      (Tennis.main db inp faults o1).db.slots_snapshot =
        (Tennis.main db inp faults o2).db.slots_snapshot) := by
  refine ⟨?_, ?_, ?_⟩
  · intro pm cm oracle st sid group ymd info code hpush horacle hb hts
    have hadded : List.filter
        (fun sk => decide (sk ∉ (Tennis.alookup st.baseline_map (sid, group, ymd)).getD []))
        (cm (sid, group, ymd)) ≠ [] := by
      intro h0
      apply hts
      rw [h0]
      rfl
    simp only [Tennis.processKey, hpush]
    rw [if_neg hb, if_neg hadded, if_neg hts, horacle]
  · intro pm cm oracle keys st
    exact Tennis.fold_processKey_snapshot pm cm oracle keys st
  · intro db inp faults o1 o2
    rw [Tennis.main_snapshot_spec, Tennis.main_snapshot_spec]

/-- Witness for C5 at a concrete failing push. -/
theorem push_failure_contained_witness :
    ((fun (_ : Tennis.PushSub) (_ _ : String) => Tennis.PushResult.fail (some 410))
        ({ endpoint := "e", p256dh := "p", auth := "a" } : Tennis.PushSub) "t" "b" =
      Tennis.PushResult.fail (some 410)) ∧
      Tennis.processKey
        (fun s => if s = "s1" then
          some ({ endpoint := "e", p256dh := "p", auth := "a" } : Tennis.PushSub) else none)
        (fun _ => ["19:00~21:00"])
        (fun _ _ _ => Tennis.PushResult.fail (some 410))
        { db := { baseline_slots := [("s1", "마루", "20250301", "x")],
                  sent_slots := [], slots_snapshot := [] },
          baseline_map := [(("s1", "마루", "20250301"), ["x"])],
          sent_map := [], sent_rows := [], logs := [],
          push_requests := 0, baseline_inserts := 0, added_total := 0 }
        ("s1", "마루", "20250301") =
        { db := { baseline_slots := [("s1", "마루", "20250301", "x")],
                  sent_slots := [], slots_snapshot := [] },
          baseline_map := [(("s1", "마루", "20250301"), ["x"])],
          sent_map := [], sent_rows := [],
          logs := [.pushFail "s1" "마루" "20250301" (some 410)],
          push_requests := 0, baseline_inserts := 0, added_total := 0 } := by
  refine ⟨rfl, ?_⟩
  exact push_failure_contained.1
    (fun s => if s = "s1" then
      some { endpoint := "e", p256dh := "p", auth := "a" } else none)
    (fun _ => ["19:00~21:00"])
    (fun _ _ _ => Tennis.PushResult.fail (some 410))
    { db := { baseline_slots := [("s1", "마루", "20250301", "x")],
              sent_slots := [], slots_snapshot := [] },
      baseline_map := [(("s1", "마루", "20250301"), ["x"])],
      sent_map := [], sent_rows := [], logs := [],
      push_requests := 0, baseline_inserts := 0, added_total := 0 }
    "s1" "마루" "20250301" { endpoint := "e", p256dh := "p", auth := "a" } (some 410)
    rfl (fun _ _ => rfl) (by decide) (by decide)

namespace Tennis

theorem processKey_logs_mono (pm : String → Option PushSub)
    (cm : String × String × String → List String)
    (oracle : PushSub → String → String → PushResult)
    (st : EngineState) (k : String × String × String) (x : LogEvent)
    (hx : x ∈ st.logs) : x ∈ (processKey pm cm oracle st k).logs := by
  rcases hp : pm k.1 with _ | info
  · simpa [processKey, hp] using hx
  · simp only [processKey, hp]
    repeat' split
    all_goals first
      | exact hx
      | exact List.mem_append_left _ hx

theorem fold_logs_mono (pm : String → Option PushSub)
    (cm : String × String × String → List String)
    (oracle : PushSub → String → String → PushResult) :
    ∀ (keys : List (String × String × String)) (st : EngineState) (x : LogEvent),
      x ∈ st.logs → x ∈ (keys.foldl (processKey pm cm oracle) st).logs := by
  intro keys
  induction keys with
  | nil => intro st x hx; exact hx
  | cons k rest ih =>
    intro st x hx
    rw [List.foldl_cons]
    exact ih _ x (processKey_logs_mono pm cm oracle st k x hx)

end Tennis

/-- C6 counterexample: a cycle in which the required `slots_snapshot` bulk
upsert fails is not treated as cycle-fatal — at this concrete input the
engine logs a snapshot-flush warning, still performs the `sent_slots` bulk
insert, and ends with its normal summary line. -/
theorem flush_failure_not_fatal_cex :
    (Tennis.main
        { baseline_slots := [("s1", "B", "20250302", "x")], sent_slots := [],
          slots_snapshot := [] }
        { now := 5,
          facilities := [("f2", "B테니스장")],
          availability := [("f2", [("20250302", [Tennis.Val.vstr "19:00~21:00"])])],
          alarm_rows := [{ subscription_id := "s1", court_group := "B",
                           date := "20250302", enabled := true }],
          push_table := [("s1", { endpoint := "e", p256dh := "p", auth := "a" })] }
        { frontend_fails := false, snapshot_fails := true, sent_fails := false }
        (fun _ _ _ => Tennis.PushResult.ok)).logs =
      [.warnSnapshotFlush, .summary 1 0 1 1] ∧
    (Tennis.main
        { baseline_slots := [("s1", "B", "20250302", "x")], sent_slots := [],
          slots_snapshot := [] }
        { now := 5,
          facilities := [("f2", "B테니스장")],
          availability := [("f2", [("20250302", [Tennis.Val.vstr "19:00~21:00"])])],
          alarm_rows := [{ subscription_id := "s1", court_group := "B",
                           date := "20250302", enabled := true }],
          push_table := [("s1", { endpoint := "e", p256dh := "p", auth := "a" })] }
        { frontend_fails := false, snapshot_fails := true, sent_fails := false }
        (fun _ _ _ => Tennis.PushResult.ok)).db.sent_slots =
      [("s1", "19:00~21:00")] := by
  exact ⟨by decide, by decide⟩

/-- C6 amended: every guarded store write — the optional frontend cache
writes and both bulk flushes — fails softly: the failure is logged as a
warning and the cycle continues; a snapshot-flush failure leaves the
snapshot table untouched but does not affect the sent-slots flush, and
whenever the notification phase runs at all the cycle still ends with its
summary line. -/
theorem flush_failures_warn_only :
    (∀ (f : Tennis.StoreFaults) (d : Tennis.DB) (n : Nat)
        (sr : List (String × String × String)) (xr : List (String × String)),
      (f.snapshot_fails = true →
        Tennis.LogEvent.warnSnapshotFlush ∈ (Tennis.flushPhase f d n sr xr).2) ∧
      (f.sent_fails = true →
        Tennis.LogEvent.warnSentFlush ∈ (Tennis.flushPhase f d n sr xr).2) ∧
      (f.snapshot_fails = true →
        (Tennis.flushPhase f d n sr xr).1.slots_snapshot = d.slots_snapshot) ∧
      (f.sent_fails = false →
        (Tennis.flushPhase f d n sr xr).1.sent_slots =
          xr.foldl Tennis.pyInsert d.sent_slots)) ∧
    (∀ (db : Tennis.DB) (inp : Tennis.CycleInput) (faults : Tennis.StoreFaults)
        (oracle : Tennis.PushSub → String → String → Tennis.PushResult),
      faults.frontend_fails = true →
      Tennis.LogEvent.warnFrontendCache ∈ (Tennis.main db inp faults oracle).logs) ∧
    (∀ (db : Tennis.DB) (inp : Tennis.CycleInput) (faults : Tennis.StoreFaults)
        (oracle : Tennis.PushSub → String → String → Tennis.PushResult),
      Tennis.load_alarms inp.alarm_rows ≠ [] →
      Tennis.alarm_keys (Tennis.load_alarms inp.alarm_rows) ≠ [] →
      (∃ a b c d2, Tennis.LogEvent.summary a b c d2 ∈ (Tennis.main db inp faults oracle).logs) ∧
      (faults.snapshot_fails = true →
        Tennis.LogEvent.warnSnapshotFlush ∈ (Tennis.main db inp faults oracle).logs) ∧
      (faults.sent_fails = true →
        Tennis.LogEvent.warnSentFlush ∈ (Tennis.main db inp faults oracle).logs)) := by
  have hflush : ∀ (f : Tennis.StoreFaults) (d : Tennis.DB) (n : Nat)
      (sr : List (String × String × String)) (xr : List (String × String)),
      (f.snapshot_fails = true →
        Tennis.LogEvent.warnSnapshotFlush ∈ (Tennis.flushPhase f d n sr xr).2) ∧
      (f.sent_fails = true →
        Tennis.LogEvent.warnSentFlush ∈ (Tennis.flushPhase f d n sr xr).2) ∧
      (f.snapshot_fails = true →
        (Tennis.flushPhase f d n sr xr).1.slots_snapshot = d.slots_snapshot) ∧
      (f.sent_fails = false →
        (Tennis.flushPhase f d n sr xr).1.sent_slots =
          xr.foldl Tennis.pyInsert d.sent_slots) := by
    intro f d n sr xr
    cases hf : f.snapshot_fails <;> cases hs : f.sent_fails <;>
      simp [Tennis.flushPhase, Tennis.bulk_mark_sent, Tennis.bulk_upsert_slots_snapshot,
        hf, hs]
  refine ⟨hflush, ?_, ?_⟩
  · intro db inp faults oracle h
    by_cases h1 : Tennis.load_alarms inp.alarm_rows = []
    · simp [Tennis.main, h1, h]
    · by_cases h2 : Tennis.alarm_keys (Tennis.load_alarms inp.alarm_rows) = []
      · simp [Tennis.main, h1, h2, h]
      · simp only [Tennis.main, if_neg h1, if_neg h2]
        refine List.mem_append_left _ (List.mem_append_left _ ?_)
        refine Tennis.fold_logs_mono _ _ _ _ _ _ ?_
        simp [h]
  · intro db inp faults oracle h1 h2
    refine ⟨?_, ?_, ?_⟩
    · simp only [Tennis.main, if_neg h1, if_neg h2]
      exact ⟨_, _, _, _, List.mem_append_right _ (List.mem_singleton_self _)⟩
    · intro h
      simp only [Tennis.main, if_neg h1, if_neg h2]
      refine List.mem_append_left _ (List.mem_append_right _ ?_)
      exact ((hflush faults _ inp.now _ _).1) h
    · intro h
      simp only [Tennis.main, if_neg h1, if_neg h2]
      refine List.mem_append_left _ (List.mem_append_right _ ?_)
      exact ((hflush faults _ inp.now _ _).2.1) h

/-- Witness for the amended C6 at a concrete cycle with all three guarded
writes failing. -/
theorem flush_failures_warn_only_witness :
    (Tennis.load_alarms
        [{ subscription_id := "s1", court_group := "B", date := "20250302", enabled := true }]
      ≠ []) ∧
    (Tennis.alarm_keys (Tennis.load_alarms
        [{ subscription_id := "s1", court_group := "B", date := "20250302", enabled := true }])
      ≠ []) ∧
    Tennis.LogEvent.warnSnapshotFlush ∈
      (Tennis.main
        { baseline_slots := [], sent_slots := [], slots_snapshot := [] }
        { now := 5, facilities := [],
          availability := [],
          alarm_rows := [{ subscription_id := "s1", court_group := "B",
                           date := "20250302", enabled := true }],
          push_table := [] }
        { frontend_fails := true, snapshot_fails := true, sent_fails := true }
        (fun _ _ _ => Tennis.PushResult.ok)).logs ∧
    Tennis.LogEvent.warnFrontendCache ∈
      (Tennis.main
        { baseline_slots := [], sent_slots := [], slots_snapshot := [] }
        { now := 5, facilities := [],
          availability := [],
          alarm_rows := [{ subscription_id := "s1", court_group := "B",
                           date := "20250302", enabled := true }],
          push_table := [] }
        { frontend_fails := true, snapshot_fails := true, sent_fails := true }
        (fun _ _ _ => Tennis.PushResult.ok)).logs := by
  refine ⟨by decide, by decide, ?_, ?_⟩
  · exact ((flush_failures_warn_only.2.2
      { baseline_slots := [], sent_slots := [], slots_snapshot := [] }
      { now := 5, facilities := [], availability := [],
        alarm_rows := [{ subscription_id := "s1", court_group := "B",
                         date := "20250302", enabled := true }],
        push_table := [] }
      { frontend_fails := true, snapshot_fails := true, sent_fails := true }
      (fun _ _ _ => Tennis.PushResult.ok) (by decide) (by decide)).2.1) rfl
  · exact flush_failures_warn_only.2.1
      { baseline_slots := [], sent_slots := [], slots_snapshot := [] }
      { now := 5, facilities := [], availability := [],
        alarm_rows := [{ subscription_id := "s1", court_group := "B",
                         date := "20250302", enabled := true }],
        push_table := [] }
      { frontend_fails := true, snapshot_fails := true, sent_fails := true }
      (fun _ _ _ => Tennis.PushResult.ok) rfl

/-- C7 counterexample: a subscription row marked disabled is still loaded
and fully evaluated — at this concrete input the disabled subscription
receives a baseline establishment (`load_alarms` has no enabled filter). -/
theorem disabled_subscription_evaluated_cex :
    (Tennis.main
        { baseline_slots := [], sent_slots := [], slots_snapshot := [] }
        { now := 5,
          facilities := [("f2", "B테니스장")],
          availability := [("f2", [("20250302", [Tennis.Val.vstr "10:00~12:00"])])],
          alarm_rows := [{ subscription_id := "s1", court_group := "B",
                           date := "20250302", enabled := false }],
          push_table := [("s1", { endpoint := "e", p256dh := "p", auth := "a" })] }
        { frontend_fails := false, snapshot_fails := false, sent_fails := false }
        (fun _ _ _ => Tennis.PushResult.ok)).baseline_inserts = 1 ∧
    (Tennis.main
        { baseline_slots := [], sent_slots := [], slots_snapshot := [] }
        { now := 5,
          facilities := [("f2", "B테니스장")],
          availability := [("f2", [("20250302", [Tennis.Val.vstr "10:00~12:00"])])],
          alarm_rows := [{ subscription_id := "s1", court_group := "B",
                           date := "20250302", enabled := false }],
          push_table := [("s1", { endpoint := "e", p256dh := "p", auth := "a" })] }
        { frontend_fails := false, snapshot_fails := false, sent_fails := false }
        (fun _ _ _ => Tennis.PushResult.ok)).db.baseline_slots =
      [("s1", "B", "20250302", "10:00~12:00")] := by
  exact ⟨by decide, by decide⟩

/-- C7 amended: the engine has no enabled filter: `load_alarms` selects the
three projected columns of every `alarms` row, and the whole cycle is
invariant under any change to the rows (such as flipping enabled flags)
that preserves those projections — a subscription is skipped only for a
missing push endpoint or malformed fields, never for being disabled. -/
theorem alarms_loaded_regardless_of_enabled :
    (∀ rows : List Tennis.AlarmRow,
      Tennis.load_alarms rows = rows.map (fun r =>
        { subscription_id := r.subscription_id, court_group := r.court_group,
          date := r.date })) ∧
    (∀ (db : Tennis.DB) (inp : Tennis.CycleInput) (faults : Tennis.StoreFaults)
        (oracle : Tennis.PushSub → String → String → Tennis.PushResult)
        (rows2 : List Tennis.AlarmRow),
      Tennis.load_alarms inp.alarm_rows = Tennis.load_alarms rows2 →
      Tennis.main db { inp with alarm_rows := rows2 } faults oracle =
        Tennis.main db inp faults oracle) := by
  constructor
  · intro rows
    rfl
  · intro db inp faults oracle rows2 h
    have e1 : ({ inp with alarm_rows := rows2 } : Tennis.CycleInput).alarm_rows = rows2 := rfl
    have e2 : ({ inp with alarm_rows := rows2 } : Tennis.CycleInput).facilities =
      inp.facilities := rfl
    have e3 : ({ inp with alarm_rows := rows2 } : Tennis.CycleInput).availability =
      inp.availability := rfl
    have e4 : ({ inp with alarm_rows := rows2 } : Tennis.CycleInput).push_table =
      inp.push_table := rfl
    have e5 : ({ inp with alarm_rows := rows2 } : Tennis.CycleInput).now = inp.now := rfl
    simp only [Tennis.main, e1, e2, e3, e4, e5, ← h]

/-- Witness for the amended C7: flipping the enabled flag of a row changes
nothing in the cycle output. -/
theorem alarms_loaded_regardless_of_enabled_witness :
    (Tennis.load_alarms
        [{ subscription_id := "s1", court_group := "B", date := "20250302", enabled := true }]
      = Tennis.load_alarms
        [{ subscription_id := "s1", court_group := "B", date := "20250302", enabled := false }]) ∧
    Tennis.main
        { baseline_slots := [], sent_slots := [], slots_snapshot := [] }
        { now := 5, facilities := [("f2", "B테니스장")],
          availability := [("f2", [("20250302", [Tennis.Val.vstr "10:00~12:00"])])],
          alarm_rows :=
            [{ subscription_id := "s1", court_group := "B", date := "20250302",
               enabled := false }],
          push_table := [("s1", { endpoint := "e", p256dh := "p", auth := "a" })] }
        { frontend_fails := false, snapshot_fails := false, sent_fails := false }
        (fun _ _ _ => Tennis.PushResult.ok) =
      Tennis.main
        { baseline_slots := [], sent_slots := [], slots_snapshot := [] }
        { now := 5, facilities := [("f2", "B테니스장")],
          availability := [("f2", [("20250302", [Tennis.Val.vstr "10:00~12:00"])])],
          alarm_rows :=
            [{ subscription_id := "s1", court_group := "B", date := "20250302",
               enabled := true }],
          push_table := [("s1", { endpoint := "e", p256dh := "p", auth := "a" })] }
        { frontend_fails := false, snapshot_fails := false, sent_fails := false }
        (fun _ _ _ => Tennis.PushResult.ok) := by
  refine ⟨rfl, ?_⟩
  exact alarms_loaded_regardless_of_enabled.2
    { baseline_slots := [], sent_slots := [], slots_snapshot := [] }
    { now := 5, facilities := [("f2", "B테니스장")],
      availability := [("f2", [("20250302", [Tennis.Val.vstr "10:00~12:00"])])],
      alarm_rows :=
        [{ subscription_id := "s1", court_group := "B", date := "20250302",
           enabled := true }],
      push_table := [("s1", { endpoint := "e", p256dh := "p", auth := "a" })] }
    { frontend_fails := false, snapshot_fails := false, sent_fails := false }
    (fun _ _ _ => Tennis.PushResult.ok)
    [{ subscription_id := "s1", court_group := "B", date := "20250302", enabled := false }]
    rfl

/-- C1: the Sent-Log is keyed by `(subscription_id, slot_key)` alone, so a
sent record written for one scope/date suppresses the same time-label
SlotKey for the same subscriber under a different scope and date.  At this
concrete input the subscriber's only sent record stems from another
court group and date, the current set for the evaluated key holds a slot
beyond its baseline, and yet no push is attempted. -/
theorem sent_log_cross_scope_suppression :
    (Tennis.currentSlots [("f2", "B테니스장")]
        [("f2", [("20250302", [Tennis.Val.vstr "19:00~21:00"])])] "B" "20250302" =
      ["19:00~21:00"]) ∧
    (Tennis.baselineRowsFor
        { baseline_slots := [("s1", "B", "20250302", "x")],
          sent_slots := [("s1", "19:00~21:00")], slots_snapshot := [] }
        ("s1", "B", "20250302") = ["x"]) ∧
    (Tennis.main
        { baseline_slots := [("s1", "B", "20250302", "x")],
          sent_slots := [("s1", "19:00~21:00")], slots_snapshot := [] }
        { now := 5,
          facilities := [("f2", "B테니스장")],
          availability := [("f2", [("20250302", [Tennis.Val.vstr "19:00~21:00"])])],
          alarm_rows := [{ subscription_id := "s1", court_group := "B",
                           date := "20250302", enabled := true }],
          push_table := [("s1", { endpoint := "e", p256dh := "p", auth := "a" })] }
        { frontend_fails := false, snapshot_fails := false, sent_fails := false }
        (fun _ _ _ => Tennis.PushResult.ok)).push_requests = 0 ∧
    (Tennis.main
        { baseline_slots := [("s1", "B", "20250302", "x")],
          sent_slots := [("s1", "19:00~21:00")], slots_snapshot := [] }
        { now := 5,
          facilities := [("f2", "B테니스장")],
          availability := [("f2", [("20250302", [Tennis.Val.vstr "19:00~21:00"])])],
          alarm_rows := [{ subscription_id := "s1", court_group := "B",
                           date := "20250302", enabled := true }],
          push_table := [("s1", { endpoint := "e", p256dh := "p", auth := "a" })] }
        { frontend_fails := false, snapshot_fails := false, sent_fails := false }
        (fun _ _ _ => Tennis.PushResult.ok)).db.sent_slots = [("s1", "19:00~21:00")] := by
  exact ⟨by decide, by decide, by decide, by decide⟩

/-- C4: with a nonempty availability containing a well-formed observation
but an empty `alarms` table, `main` returns at the `alarms=0` early exit
before step 11, so the snapshot row that the observation should have
produced is never written. -/
theorem snapshot_skipped_without_alarms :
    (Tennis.buildSnapshotRows
        [("f1", [("20250301", [Tennis.Val.vstr "10:00~12:00"])])] =
      [("f1", "20250301", "10:00~12:00")]) ∧
    (Tennis.main
        { baseline_slots := [], sent_slots := [], slots_snapshot := [] }
        { now := 5,
          facilities := [("f1", "A테니스장")],
          availability := [("f1", [("20250301", [Tennis.Val.vstr "10:00~12:00"])])],
          alarm_rows := [],
          push_table := [] }
        { frontend_fails := false, snapshot_fails := false, sent_fails := false }
        (fun _ _ _ => Tennis.PushResult.ok)).db.slots_snapshot = [] ∧
    Tennis.LogEvent.summaryNoAlarms ∈
      (Tennis.main
        { baseline_slots := [], sent_slots := [], slots_snapshot := [] }
        { now := 5,
          facilities := [("f1", "A테니스장")],
          availability := [("f1", [("20250301", [Tennis.Val.vstr "10:00~12:00"])])],
          alarm_rows := [],
          push_table := [] }
        { frontend_fails := false, snapshot_fails := false, sent_fails := false }
        (fun _ _ _ => Tennis.PushResult.ok)).logs := by
  exact ⟨by decide, by decide, by decide⟩
